import Mathlib

/-!
Verification of the OpenEngine OBJResource extension (OBJ/MTL model loader).

The development shallowly embeds `Resources/OBJResource.cpp`:
* MTL material-file parsing (`LoadMaterialFile`) as `mtlStep` / `runMtlLines` /
  `loadMaterialFile`;
* OBJ parsing (`Load`) as `objStep` / `runObjLines` / `Load`;
* the resource lifecycle (`OBJResource::OBJResource`, `Unload`, `GetSceneNode`)
  as `mkOBJResource`, `Unload`, `GetSceneNode`.

Floating point values carry no arithmetic in the source (they are only parsed,
stored and compared), so they are modelled exactly as rationals.  C++ shared
pointers into the material map are modelled by a store of materials indexed by
allocation order, with the name table mapping names to store indices; this
captures the aliasing between the `m` working pointer and map entries.
Out-of-bounds `std::vector` reads (undefined behaviour in the source) are
modelled as `none` / `TexSlot.oob` markers.  File input is supplied as a list
of lines; the process-wide numeric locale is a string field of `ProcState`.
-/

/-- A 2-component float vector (`Vector<2,float>`), components as exact rationals. -/
structure Vec2 where
  u : ℚ
  v : ℚ
deriving DecidableEq

/-- A 3-component float vector (`Vector<3,float>`). -/
structure Vec3 where
  x : ℚ
  y : ℚ
  z : ℚ
deriving DecidableEq

/-- A 4-component float vector (`Vector<4,float>`), used for material colors. -/
structure Vec4 where
  x : ℚ
  y : ℚ
  z : ℚ
  w : ℚ
deriving DecidableEq

/-- A material record (`Geometry::Material`).  Texture and shader resources are
modelled by the path string handed to the resource factory (`none` = NULL). -/
structure Material where
  ambient : Vec4
  diffuse : Vec4
  specular : Vec4
  shininess : ℚ
  texr : Option String
  shad : Option String
deriving DecidableEq

/-- The values assigned by the `newmtl` handler (OBJResource.cpp lines 106-113):
a fresh `Material` whose color fields are then set to the MTL-format defaults.
`texr`/`shad` are the NULL resource pointers of a fresh `Material`. -/
def newMaterialDefaults : Material :=
  { ambient := ⟨2/10, 2/10, 2/10, 1⟩
    diffuse := ⟨8/10, 8/10, 8/10, 1⟩
    specular := ⟨1, 1, 1, 1⟩
    shininess := 0
    texr := none
    shad := none }

/-- Reference held by a face's `mat` field: the per-`Load` `defaultMaterial`
object, or a material allocated by `LoadMaterialFile` (by allocation index). -/
inductive MatRef where
  | defaultMat : MatRef
  | named : Nat → MatRef
deriving DecidableEq

/-- State of one texcoord slot of a `Face` after the unconditional assignments
`face->texc[i] = texc[f[..] - 1]` (lines 301-303): `val` when the index was in
range, `oob` when the read was outside the vector (undefined behaviour in the
source, e.g. `texc[-1]`).  `unset` is the state before any assignment. -/
inductive TexSlot where
  | unset : TexSlot
  | val : Vec2 → TexSlot
  | oob : TexSlot
deriving DecidableEq

/-- One `Geometry::Face` as built by the face handler.  Vertex/normal slots are
`none` when the corresponding `vert[..]`/`norm[..]` read was out of bounds
(undefined behaviour in the source; the data is indeterminate). -/
structure ObjFace where
  v1 : Option Vec3
  v2 : Option Vec3
  v3 : Option Vec3
  n1 : Option Vec3
  n2 : Option Vec3
  n3 : Option Vec3
  t1 : TexSlot
  t2 : TexSlot
  t3 : TexSlot
  mat : Option MatRef
deriving DecidableEq

/-- A C++ pointer field: uninitialized (indeterminate), NULL, or pointing at a
value. -/
inductive PtrVal (α : Type) where
  | uninit : PtrVal α
  | null : PtrVal α
  | ptr : α → PtrVal α
deriving DecidableEq

/-- A logged warning: (current file, 1-based line number, message), as emitted
by `OBJResource::Error`. -/
abbrev Warn := String × Nat × String

/-- The `materials` member: materials by allocation order (`store`) plus the
`map<string, MaterialPtr>` name table mapping names to store indices. -/
structure MtlTable where
  store : List Material
  table : List (String × Nat)
deriving DecidableEq

/-- Working state of `LoadMaterialFile`: the shared material table, the `m`
working pointer (`cur`, an index into the store; `none` = NULL) and the log. -/
structure MtlAcc where
  mtl : MtlTable
  cur : Option Nat
  log : List Warn
deriving DecidableEq

/-- Working state of the `Load` parse loop. -/
structure ParseState where
  file : String
  vert : List Vec3
  norm : List Vec3
  texc : List Vec2
  mat : Option MatRef
  faces : List ObjFace
  mtl : MtlTable
  log : List Warn
deriving DecidableEq

/-- The `OBJResource` object: file path and the `faces`, `node`, `materials`
members. -/
structure OBJResourceState where
  file : String
  faces : PtrVal (List ObjFace)
  node : PtrVal (List ObjFace)
  mtl : MtlTable
deriving DecidableEq

/-- Process-wide state touched by `Load`: the `LC_NUMERIC` locale setting and
the logger output. -/
structure ProcState where
  locale : String
  log : List Warn
deriving DecidableEq

/-! ### String and scanning helpers (modelling `string(buf,n)` and `sscanf`) -/

/-- Models `string(buf, n)`: the first `n` characters of a line (the whole line when
shorter). -/
def cstrN (s : String) (n : Nat) : List Char := s.data.take n

/-- The remainder of a line after its first `n` characters (`buf + n`). -/
def strDrop (s : String) (n : Nat) : String := String.mk (s.data.drop n)

/-- Whitespace as skipped by `sscanf` directives and `stringstream`. -/
def isWs (c : Char) : Bool := c = ' ' || c = '\t' || c = '\r' || c = '\n'

/-- Accumulating whitespace tokenizer. -/
def splitWsAux : List Char → List Char → List String → List String
  | [], cur, acc => if cur = [] then acc else acc ++ [String.mk cur.reverse]
  | c :: cs, cur, acc =>
    if isWs c then
      splitWsAux cs [] (if cur = [] then acc else acc ++ [String.mk cur.reverse])
    else
      splitWsAux cs (c :: cur) acc

/-- The whitespace-separated tokens of a string (the `%s` fields seen by
`sscanf`, and the items extracted by `stringstream >>`). -/
def wsTokens (s : String) : List String := splitWsAux s.data [] []

/-- Numeric value of a digit string. -/
def digitsVal (l : List Char) : Nat := l.foldl (fun a c => a * 10 + (c.toNat - 48)) 0

/-- Unsigned `%f` body: digits with an optional fractional part.  (Exponent
forms accepted by `%f` are not needed by any input considered here.) -/
def parseURat (l : List Char) : Option ℚ :=
  let ip := l.takeWhile Char.isDigit
  let rest := l.dropWhile Char.isDigit
  match rest with
  | [] => if ip = [] then none else some (digitsVal ip : ℚ)
  | '.' :: fr =>
    if fr.all Char.isDigit && !(ip = [] && fr = []) then
      some ((digitsVal ip : ℚ) + (digitsVal fr : ℚ) / (10 ^ fr.length : ℚ))
    else none
  | _ => none

/-- A `%f` conversion applied to one whole token (optional sign, then the
unsigned body). -/
def parseRatChars (l : List Char) : Option ℚ :=
  match l with
  | '-' :: r => (parseURat r).map (fun q => -q)
  | '+' :: r => parseURat r
  | r => parseURat r

/-- Runs `%f` on a token. -/
def parseRatTok (s : String) : Option ℚ := parseRatChars s.data

/-- A `%d` conversion applied to one whole token: optional sign and digits. -/
def parseIntChars (l : List Char) : Option Int :=
  match l with
  | '-' :: r => if r ≠ [] && r.all Char.isDigit then some (-(digitsVal r : Int)) else none
  | '+' :: r => if r ≠ [] && r.all Char.isDigit then some (digitsVal r : Int) else none
  | r => if r ≠ [] && r.all Char.isDigit then some (digitsVal r : Int) else none

/-- Runs `%d` on a token. -/
def parseIntTok (s : String) : Option Int := parseIntChars s.data

/-- Models `sscanf(s, "%f %f %f", ...) == 3`: the first three tokens parse as floats
(further tokens are ignored, as `sscanf` stops when its format is exhausted). -/
def scan3f (s : String) : Option (ℚ × ℚ × ℚ) :=
  match wsTokens s with
  | a :: b :: c :: _ =>
    match parseRatTok a, parseRatTok b, parseRatTok c with
    | some x, some y, some z => some (x, y, z)
    | _, _, _ => none
  | _ => none

/-- Models `sscanf(s, "%f %f", ...) == 2`. -/
def scan2f (s : String) : Option (ℚ × ℚ) :=
  match wsTokens s with
  | a :: b :: _ =>
    match parseRatTok a, parseRatTok b with
    | some x, some y => some (x, y)
    | _, _ => none
  | _ => none

/-- Models `sscanf(s, "%f", ...) == 1`. -/
def scan1f (s : String) : Option ℚ :=
  match wsTokens s with
  | a :: _ => parseRatTok a
  | _ => none

/-- Models `File::Parent`: the directory part of a path, up to and including the last
path separator (empty for a bare file name).  External helper, modelled here
only so `mtllib` path joining is executable. -/
def fileParent (f : String) : String :=
  String.mk ((f.data.reverse.dropWhile (fun c => c ≠ '/')).reverse)

/-- The `decimal_point` field of `localeconv()` for the `LC_NUMERIC` locale
current at the time of the call (libc locale data, external to the parser). -/
def localeDecimalPoint (loc : String) : String :=
  if loc = "C" || loc = "POSIX" then "."
  else if loc = "da_DK" || loc = "de_DE" || loc = "fr_FR" then ","
  else "."

/-- The 1-based indexing `xs[i - 1]` used by the face handler.  An index
outside `1 .. xs.length` makes the C++ `std::vector` access read out of bounds
(undefined behaviour); that case is modelled as `none`. -/
def idx1 {α : Type} (xs : List α) (i : Int) : Option α :=
  if 1 ≤ i then xs.get? (i - 1).toNat else none

/-! ### `LoadMaterialFile` (OBJResource.cpp lines 79-198) -/

/-- Models `OBJResource::Error` while `this->file` is the MTL file being parsed. -/
def mtlWarn (fname : String) (acc : MtlAcc) (ln : Nat) (msg : String) : MtlAcc :=
  { acc with log := acc.log ++ [(fname, ln, msg)] }

/-- Models `materials.insert(make_pair(name, m))`: `std::map::insert` adds the pair
only when the key is not already present; an existing entry is kept. -/
def insertKeep (tbl : List (String × Nat)) (k : String) (v : Nat) : List (String × Nat) :=
  if (tbl.lookup k).isSome then tbl else tbl ++ [(k, v)]

/-- The material an entry of the name table designates. -/
def materialNamed (t : MtlTable) (name : String) : Option Material :=
  (t.table.lookup name).bind (fun i => t.store.get? i)

/-- One line of the `LoadMaterialFile` loop (lines 96-195).  Prefix tests
mirror `string(buf,n) == ...`; each `sscanf` is modelled by the token
scanners.  `map_Kd`/`shader` resource creation is modelled by recording the
path (the factories are external collaborators). -/
def mtlStep (fname : String) (acc : MtlAcc) (ln : Nat) (s : String) : MtlAcc :=
  if cstrN s 6 = "newmtl".data then
    match (wsTokens (strDrop s 6)).head? with
    | none => mtlWarn fname acc ln "Invalid newmtr declaration"
    | some name =>
      let i := acc.mtl.store.length
      { acc with
        cur := some i
        mtl := { store := acc.mtl.store ++ [newMaterialDefaults]
                 table := insertKeep acc.mtl.table name i } }
  else if cstrN s 2 = "Ka".data then
    match scan3f (strDrop s 2) with
    | none => mtlWarn fname acc ln "Invalid Ka declaration"
    | some (r, g, b) =>
      match acc.cur with
      | none => mtlWarn fname acc ln "Ka section without newmtr declaration"
      | some i =>
        let m := acc.mtl.store.getD i newMaterialDefaults
        { acc with mtl := { acc.mtl with
            store := acc.mtl.store.set i { m with ambient := { m.ambient with x := r, y := g, z := b } } } }
  else if cstrN s 2 = "Kd".data then
    match scan3f (strDrop s 2) with
    | none => mtlWarn fname acc ln "Invalid Kd declaration"
    | some (r, g, b) =>
      match acc.cur with
      | none => mtlWarn fname acc ln "Kd section without newmtr declaration"
      | some i =>
        let m := acc.mtl.store.getD i newMaterialDefaults
        { acc with mtl := { acc.mtl with
            store := acc.mtl.store.set i { m with diffuse := { m.diffuse with x := r, y := g, z := b } } } }
  else if cstrN s 2 = "Ks".data then
    match scan3f (strDrop s 2) with
    | none => mtlWarn fname acc ln "Invalid Ks declaration"
    | some (r, g, b) =>
      match acc.cur with
      | none => mtlWarn fname acc ln "Ks section without newmtr declaration"
      | some i =>
        let m := acc.mtl.store.getD i newMaterialDefaults
        { acc with mtl := { acc.mtl with
            store := acc.mtl.store.set i { m with specular := { m.specular with x := r, y := g, z := b } } } }
  else if cstrN s 2 = "Ns".data then
    match scan1f (strDrop s 2) with
    | none => mtlWarn fname acc ln "Invalid Ns declaration"
    | some v =>
      match acc.cur with
      | none => mtlWarn fname acc ln "Ns section without newmtr declaration"
      | some i =>
        let m := acc.mtl.store.getD i newMaterialDefaults
        { acc with mtl := { acc.mtl with store := acc.mtl.store.set i { m with shininess := v } } }
  else if cstrN s 6 = "map_Kd".data then
    match (wsTokens (strDrop s 6)).head? with
    | none => mtlWarn fname acc ln "Invalid map_Kd declaration"
    | some t =>
      match acc.cur with
      | none => mtlWarn fname acc ln "Multiple map_Kd sections appear before a newmtr declaration"
      | some i =>
        let m := acc.mtl.store.getD i newMaterialDefaults
        if m.texr ≠ none then
          mtlWarn fname acc ln "Multiple map_Kd sections appear before a newmtr declaration"
        else
          { acc with mtl := { acc.mtl with store := acc.mtl.store.set i { m with texr := some t } } }
  else if cstrN s 6 = "shader".data then
    match (wsTokens (strDrop s 6)).head? with
    | none => mtlWarn fname acc ln "Invalid shader declaration"
    | some t =>
      match acc.cur with
      | none => mtlWarn fname acc ln "Multiple shader sections appear before a newmtr declaration"
      | some i =>
        let m := acc.mtl.store.getD i newMaterialDefaults
        if m.shad ≠ none then
          mtlWarn fname acc ln "Multiple shader sections appear before a newmtr declaration"
        else
          { acc with mtl := { acc.mtl with store := acc.mtl.store.set i { m with shad := some t } } }
  else
    acc

/-- The `LoadMaterialFile` line loop, line numbers starting at 1. -/
def runMtlLines (fname : String) (acc : MtlAcc) (lns : List String) (ln : Nat) : MtlAcc :=
  match lns with
  | [] => acc
  | s :: rest => runMtlLines fname (mtlStep fname acc ln s) rest (ln + 1)

/-- Models `LoadMaterialFile(file)`: parses the named file's lines against the shared
material table, with a fresh NULL working pointer `m`, tagging warnings with
the MTL file name (the `this->file` swap of lines 91-93 and 197). -/
def loadMaterialFile (mtlFiles : String → List String) (mtl : MtlTable)
    (log : List Warn) (fname : String) : MtlTable × List Warn :=
  let acc := runMtlLines fname { mtl := mtl, cur := none, log := log } (mtlFiles fname) 1
  (acc.mtl, acc.log)

/-! ### `Load` (OBJResource.cpp lines 211-360) -/

/-- Models `OBJResource::Error` from the main loop (`this->file` is the OBJ file). -/
def objWarn (st : ParseState) (ln : Nat) (msg : String) : ParseState :=
  { st with log := st.log ++ [(st.file, ln, msg)] }

/-- The `v` handler (lines 248-253). -/
def objV (st : ParseState) (ln : Nat) (s : String) : ParseState :=
  match scan3f (strDrop s 2) with
  | some (a, b, c) => { st with vert := st.vert ++ [⟨a, b, c⟩] }
  | none => objWarn st ln "Invalid vertex"

/-- The `vt` handler (lines 256-261). -/
def objVt (st : ParseState) (ln : Nat) (s : String) : ParseState :=
  match scan2f (strDrop s 2) with
  | some (a, b) => { st with texc := st.texc ++ [⟨a, b⟩] }
  | none => objWarn st ln "Invalid texture coordinate"

/-- The `vn` handler (lines 264-269). -/
def objVn (st : ParseState) (ln : Nat) (s : String) : ParseState :=
  match scan3f (strDrop s 2) with
  | some (a, b, c) => { st with norm := st.norm ++ [⟨a, b, c⟩] }
  | none => objWarn st ln "Invalid vertex normal"

/-- The nine slots of `Vector<9,int> f(0)`: position/texcoord/normal index per
corner.  Slots not assigned by the matching pattern keep their initial 0. -/
structure Idx9 where
  p1 : Int
  t1 : Int
  n1 : Int
  p2 : Int
  t2 : Int
  n2 : Int
  p3 : Int
  t3 : Int
  n3 : Int
deriving DecidableEq

/-- One corner of the `"f %d/%d/%d ..."` pattern. -/
def cornerFull (c : String) : Option (Int × Int × Int) :=
  match c.data.splitOn '/' with
  | [a, b, d] =>
    match parseIntChars a, parseIntChars b, parseIntChars d with
    | some p, some t, some n => some (p, t, n)
    | _, _, _ => none
  | _ => none

/-- One corner of the `"f %d//%d ..."` pattern. -/
def cornerNoTex (c : String) : Option (Int × Int) :=
  match c.data.splitOn '/' with
  | [a, [], d] =>
    match parseIntChars a, parseIntChars d with
    | some p, some n => some (p, n)
    | _, _ => none
  | _ => none

/-- One corner of the `"f %d %d %d"` pattern. -/
def cornerPos (c : String) : Option Int :=
  match c.data.splitOn '/' with
  | [a] => parseIntChars a
  | _ => none

/-- The three alternative face encodings tried in order (lines 279-281); the
first fully matching pattern wins. -/
def faceIdx (c1 c2 c3 : String) : Option Idx9 :=
  match cornerFull c1, cornerFull c2, cornerFull c3 with
  | some (p1, t1, n1), some (p2, t2, n2), some (p3, t3, n3) =>
    some ⟨p1, t1, n1, p2, t2, n2, p3, t3, n3⟩
  | _, _, _ =>
    match cornerNoTex c1, cornerNoTex c2, cornerNoTex c3 with
    | some (p1, n1), some (p2, n2), some (p3, n3) =>
      some ⟨p1, 0, n1, p2, 0, n2, p3, 0, n3⟩
    | _, _, _ =>
      match cornerPos c1, cornerPos c2, cornerPos c3 with
      | some p1, some p2, some p3 =>
        some ⟨p1, 0, 0, p2, 0, 0, p3, 0, 0⟩
      | _, _, _ => none

/-- Models `face->texc[j] = texc[i - 1]` (lines 301-303): executed unconditionally;
an out-of-range index (e.g. the sentinel 0 left by a texcoord-less pattern,
giving `texc[-1]`) reads out of bounds, leaving indeterminate data. -/
def texLookup (l : List Vec2) (i : Int) : TexSlot :=
  match idx1 l i with
  | some v => TexSlot.val v
  | none => TexSlot.oob

/-- The face built from the raw streams (lines 287-303 and 319).  The `Face`
constructor itself is external `Geometry` code and is modelled as plain
construction. -/
def mkObjFace (st : ParseState) (f : Idx9) : ObjFace :=
  { v1 := idx1 st.vert f.p1
    v2 := idx1 st.vert f.p2
    v3 := idx1 st.vert f.p3
    n1 := idx1 st.norm f.n1
    n2 := idx1 st.norm f.n2
    n3 := idx1 st.norm f.n3
    t1 := texLookup st.texc f.t1
    t2 := texLookup st.texc f.t2
    t3 := texLookup st.texc f.t3
    mat := st.mat }

/-- The zero-normal check of lines 314-316.  A normal slot holding
indeterminate out-of-bounds data gives an unspecified result and is not
modelled as a warning. -/
def zeroWarn (file : String) (ln : Nat) (i : Nat) (n : Option Vec3) : List Warn :=
  match n with
  | some v => if v = ⟨0, 0, 0⟩ then [(file, ln, "norm[" ++ toString i ++ "] is the zero vector")] else []
  | none => []

/-- The `f` handler (lines 272-324).  `sscanf(buffer, "f %s %s %s %s", ...)`
assigns `min 4 (number of corner tokens)` strings; anything other than exactly
3 corners is a triangulation error. -/
def objF (st : ParseState) (ln : Nat) (s : String) : ParseState :=
  if min (wsTokens (strDrop s 2)).length 4 ≠ 3 then
    objWarn st ln "Face has not been triangulated"
  else
    match wsTokens (strDrop s 2) with
    | [c1, c2, c3] =>
      match faceIdx c1 c2 c3 with
      | none => objWarn st ln "Invalid face"
      | some f =>
        { st with
          faces := st.faces ++ [mkObjFace st f]
          log := st.log ++ zeroWarn st.file ln 0 (mkObjFace st f).n1
                        ++ zeroWarn st.file ln 1 (mkObjFace st f).n2
                        ++ zeroWarn st.file ln 2 (mkObjFace st f).n3 }
    | _ => st

/-- The `mtllib` handler (lines 327-332): each name extracted from
`buffer + 7` loads a material file resolved against the OBJ file's parent. -/
def objMtllib (mtlFiles : String → List String) (st : ParseState) (s : String) : ParseState :=
  (wsTokens (strDrop s 7)).foldl
    (fun st2 name =>
      let r := loadMaterialFile mtlFiles st2.mtl st2.log (fileParent st2.file ++ name)
      { st2 with mtl := r.1, log := r.2 }) st

/-- The `usemtl` handler (lines 335-346).  A line with no name token leaves
the `name` buffer indeterminate (the `sscanf` result is not checked); that
undefined-behaviour case is modelled as a no-op. -/
def objUsemtl (st : ParseState) (ln : Nat) (s : String) : ParseState :=
  match (wsTokens (strDrop s 6)).head? with
  | none => st
  | some name =>
    match st.mtl.table.lookup name with
    | none =>
      { (objWarn st ln ("Material " ++ name ++ " is not defined in any material resources")) with
        mat := some MatRef.defaultMat }
    | some i => { st with mat := some (MatRef.named i) }

/-- One line of the `Load` loop (lines 236-350).  `in->gcount() <= 2` skips
lines of at most one character (the count includes the discarded newline);
then `buffer[0]` filters blanks, comments and group/smoothing lines. -/
def objStep (mtlFiles : String → List String) (st : ParseState) (ln : Nat) (s : String) : ParseState :=
  if s.data.length ≤ 1 then st
  else if s.data.headD ' ' ∈ [' ', '#', 'g', 's'] then st
  else if cstrN s 2 = "v ".data then objV st ln s
  else if cstrN s 2 = "vt".data then objVt st ln s
  else if cstrN s 2 = "vn".data then objVn st ln s
  else if cstrN s 2 = "f ".data then objF st ln s
  else if cstrN s 6 = "mtllib".data then objMtllib mtlFiles st s
  else if cstrN s 6 = "usemtl".data then objUsemtl st ln s
  else objWarn st ln "Unsupported OBJ declaration"

/-- The `Load` line loop, line numbers starting at 1. -/
def runObjLines (mtlFiles : String → List String) (st : ParseState)
    (lns : List String) (ln : Nat) : ParseState :=
  match lns with
  | [] => st
  | s :: rest => runObjLines mtlFiles (objStep mtlFiles st ln s) rest (ln + 1)

/-- Models `OBJResource::Load` (lines 211-360).  `objLines` stands for the contents
of `this->file`; `mtlFiles` for the contents of any material file.  Note the
order of operations: `localeconv()` and `setlocale(LC_NUMERIC, "C")` run
before the already-loaded check, and the early `return` on line 217 reaches
neither the parse nor the final `setlocale`.  The final
`setlocale(LC_NUMERIC, lc->decimal_point)` passes the saved locale's decimal
point string as the new locale name; it is modelled literally as storing that
argument. -/
def Load (mtlFiles : String → List String) (objLines : List String)
    (r : OBJResourceState) (p : ProcState) : OBJResourceState × ProcState :=
  let savedDp := localeDecimalPoint p.locale
  let p1 : ProcState := { p with locale := "C" }
  match r.faces with
  | PtrVal.ptr _ => (r, p1)
  | _ =>
    let st0 : ParseState :=
      { file := r.file, vert := [], norm := [], texc := [], mat := none
        faces := [], mtl := r.mtl, log := p1.log }
    let stF := runObjLines mtlFiles st0 objLines 1
    let r1 : OBJResourceState :=
      { r with faces := PtrVal.ptr stF.faces, node := PtrVal.ptr stF.faces, mtl := stF.mtl }
    (r1, { locale := savedDp, log := stF.log })

/-- Models `OBJResource::OBJResource(file)` (line 49): initializes `file` and
`faces(NULL)`; the `node` member is left uninitialized. -/
def mkOBJResource (f : String) : OBJResourceState :=
  { file := f, faces := PtrVal.null, node := PtrVal.uninit, mtl := ⟨[], []⟩ }

/-- Models `OBJResource::Unload` (lines 366-369). -/
def Unload (r : OBJResourceState) : OBJResourceState :=
  { r with faces := PtrVal.null, node := PtrVal.null }

/-- Models `OBJResource::GetSceneNode` (lines 385-387). -/
def GetSceneNode (r : OBJResourceState) : PtrVal (List ObjFace) :=
  r.node

/-! ### Concrete fixtures used by the claims -/

/-- No material files on disk. -/
def mf0 : String → List String := fun _ => []

/-- An empty `LoadMaterialFile` working state. -/
def mtlAcc0 : MtlAcc := { mtl := ⟨[], []⟩, cur := none, log := [] }

/-- An empty `Load` parse state for an OBJ file `m.obj`. -/
def objSt0 : ParseState :=
  { file := "m.obj", vert := [], norm := [], texc := [], mat := none
    faces := [], mtl := ⟨[], []⟩, log := [] }

/-- The MTL re-declaration scenario of the spec: `newmtl A`, `Kd 1 0 0`,
`newmtl A`, followed by `Ns 7` issued after the second `newmtl`. -/
def mtlRedecl : MtlAcc :=
  runMtlLines "m.mtl" mtlAcc0 ["newmtl A", "Kd 1 0 0", "newmtl A", "Ns 7"] 1

/-- The spec's round-trip OBJ input with the texcoord-absent face encoding. -/
def roundTripRun : OBJResourceState × ProcState :=
  Load mf0 ["v 0 0 0", "v 1 0 0", "v 0 1 0", "vn 0 0 1", "f 1//1 2//1 3//1"]
    (mkOBJResource "m.obj") { locale := "C", log := [] }

/-- An OBJ input whose face references position index 2 while only one
position has been declared (texcoord and normal indices are in range). -/
def oobFaceRun : OBJResourceState × ProcState :=
  Load mf0 ["v 0 0 0", "vt 0 0", "vn 0 0 1", "f 2/1/1 2/1/1 2/1/1"]
    (mkOBJResource "m.obj") { locale := "C", log := [] }

/-- An already-loaded resource (the `faces` member is non-NULL). -/
def loadedRes : OBJResourceState :=
  { file := "x.obj", faces := PtrVal.ptr [], node := PtrVal.ptr [], mtl := ⟨[], []⟩ }

/-! ### Shared helper lemmas -/

/-- A list whose `n`-prefix is `p` (with `p` of length `n`) is `p` followed by
a tail. -/
theorem take_eq_append {l p : List Char} {n : Nat} (h : l.take n = p) :
    ∃ t, l = p ++ t :=
  ⟨l.drop n, by rw [← h, List.take_append_drop]⟩

/-- A 6-character keyword test determines the 2-character prefix. -/
theorem cstrN_two_of_six {s : String} {p : List Char} (h : cstrN s 6 = p) :
    cstrN s 2 = p.take 2 := by
  rw [cstrN, ← h, cstrN, List.take_take]
  norm_num

theorem mtlWarn_mtl (fname : String) (acc : MtlAcc) (ln : Nat) (msg : String) :
    (mtlWarn fname acc ln msg).mtl = acc.mtl := rfl

theorem mtlWarn_cur (fname : String) (acc : MtlAcc) (ln : Nat) (msg : String) :
    (mtlWarn fname acc ln msg).cur = acc.cur := rfl

theorem mtlWarn_log (fname : String) (acc : MtlAcc) (ln : Nat) (msg : String) :
    (mtlWarn fname acc ln msg).log.length = acc.log.length + 1 := by
  simp [mtlWarn]

/-- On any `Ka`/`Kd`/`Ks`/`Ns` line processed while no material is active, the
MTL step only logs a warning. -/
theorem mtlStep_color_no_cur {fname : String} {acc : MtlAcc} {ln : Nat} {s : String}
    (hcur : acc.cur = none)
    (hpre : cstrN s 2 = "Ka".data ∨ cstrN s 2 = "Kd".data ∨
            cstrN s 2 = "Ks".data ∨ cstrN s 2 = "Ns".data) :
    ∃ msg, mtlStep fname acc ln s = mtlWarn fname acc ln msg := by
  have h6 : ¬ cstrN s 6 = "newmtl".data := by
    intro h
    have h2 := cstrN_two_of_six h
    rcases hpre with h' | h' | h' | h' <;> rw [h'] at h2 <;> exact absurd h2 (by decide)
  unfold mtlStep
  rw [if_neg h6]
  rcases hpre with h | h | h | h
  · rw [if_pos h]
    cases hs : scan3f (strDrop s 2) with
    | none => exact ⟨_, rfl⟩
    | some v =>
      obtain ⟨r, g, b⟩ := v
      rw [hcur]
      exact ⟨_, rfl⟩
  · rw [if_neg (by rw [h]; decide), if_pos h]
    cases hs : scan3f (strDrop s 2) with
    | none => exact ⟨_, rfl⟩
    | some v =>
      obtain ⟨r, g, b⟩ := v
      rw [hcur]
      exact ⟨_, rfl⟩
  · rw [if_neg (by rw [h]; decide), if_neg (by rw [h]; decide), if_pos h]
    cases hs : scan3f (strDrop s 2) with
    | none => exact ⟨_, rfl⟩
    | some v =>
      obtain ⟨r, g, b⟩ := v
      rw [hcur]
      exact ⟨_, rfl⟩
  · rw [if_neg (by rw [h]; decide), if_neg (by rw [h]; decide), if_neg (by rw [h]; decide),
      if_pos h]
    cases hs : scan1f (strDrop s 2) with
    | none => exact ⟨_, rfl⟩
    | some v =>
      rw [hcur]
      exact ⟨_, rfl⟩

theorem objWarn_mat (st : ParseState) (ln : Nat) (msg : String) :
    (objWarn st ln msg).mat = st.mat := rfl

theorem objWarn_faces (st : ParseState) (ln : Nat) (msg : String) :
    (objWarn st ln msg).faces = st.faces := rfl

theorem objV_mat (st : ParseState) (ln : Nat) (s : String) :
    (objV st ln s).mat = st.mat := by
  unfold objV
  split <;> rfl

theorem objVt_mat (st : ParseState) (ln : Nat) (s : String) :
    (objVt st ln s).mat = st.mat := by
  unfold objVt
  split <;> rfl

theorem objVn_mat (st : ParseState) (ln : Nat) (s : String) :
    (objVn st ln s).mat = st.mat := by
  unfold objVn
  split <;> rfl

theorem objF_mat (st : ParseState) (ln : Nat) (s : String) :
    (objF st ln s).mat = st.mat := by
  unfold objF
  split
  · rfl
  · split
    · split
      · rfl
      · rfl
    · rfl

theorem objMtllib_mat (mtlFiles : String → List String) (st : ParseState) (s : String) :
    (objMtllib mtlFiles st s).mat = st.mat := by
  unfold objMtllib
  generalize wsTokens (strDrop s 7) = names
  induction names generalizing st with
  | nil => rfl
  | cons n rest ih => exact ih _

theorem objV_faces (st : ParseState) (ln : Nat) (s : String) :
    (objV st ln s).faces = st.faces := by
  unfold objV
  split <;> rfl

theorem objVt_faces (st : ParseState) (ln : Nat) (s : String) :
    (objVt st ln s).faces = st.faces := by
  unfold objVt
  split <;> rfl

theorem objVn_faces (st : ParseState) (ln : Nat) (s : String) :
    (objVn st ln s).faces = st.faces := by
  unfold objVn
  split <;> rfl

theorem objMtllib_faces (mtlFiles : String → List String) (st : ParseState) (s : String) :
    (objMtllib mtlFiles st s).faces = st.faces := by
  unfold objMtllib
  generalize wsTokens (strDrop s 7) = names
  induction names generalizing st with
  | nil => rfl
  | cons n rest ih => exact ih _

theorem objUsemtl_faces (st : ParseState) (ln : Nat) (s : String) :
    (objUsemtl st ln s).faces = st.faces := by
  unfold objUsemtl
  split
  · rfl
  · split <;> rfl

/-- Every face present after a face line was either already there or was
tagged with the active material of that moment. -/
theorem objF_faces_mem (st : ParseState) (ln : Nat) (s : String) :
    ∀ fc ∈ (objF st ln s).faces, fc ∈ st.faces ∨ fc.mat = st.mat := by
  unfold objF
  split
  · intro fc h
    exact Or.inl h
  · split
    · split
      · intro fc h
        exact Or.inl h
      · intro fc h
        rcases List.mem_append.mp h with h' | h'
        · exact Or.inl h'
        · right
          rw [List.mem_singleton.mp h']
          rfl
    · intro fc h
      exact Or.inl h

/-- One step never removes a face, and any face it adds carries the material
active when the step ran. -/
theorem objStep_faces_mem (mtlFiles : String → List String) (st : ParseState)
    (ln : Nat) (s : String) :
    ∀ fc ∈ (objStep mtlFiles st ln s).faces, fc ∈ st.faces ∨ fc.mat = st.mat := by
  unfold objStep
  split_ifs with h1 h2 h3 h4 h5 h6 h7 h8
  · exact fun fc h => Or.inl h
  · exact fun fc h => Or.inl h
  · rw [objV_faces]
    exact fun fc h => Or.inl h
  · rw [objVt_faces]
    exact fun fc h => Or.inl h
  · rw [objVn_faces]
    exact fun fc h => Or.inl h
  · exact objF_faces_mem st ln s
  · rw [objMtllib_faces]
    exact fun fc h => Or.inl h
  · rw [objUsemtl_faces]
    exact fun fc h => Or.inl h
  · rw [objWarn_faces]
    exact fun fc h => Or.inl h

/-- Any step other than a `usemtl` line leaves the active material unchanged. -/
theorem objStep_mat (mtlFiles : String → List String) (st : ParseState)
    (ln : Nat) (s : String) (h : ¬ cstrN s 6 = "usemtl".data) :
    (objStep mtlFiles st ln s).mat = st.mat := by
  unfold objStep
  split_ifs with h1 h2 h3 h4 h5 h6 h7
  · rfl
  · rfl
  · exact objV_mat st ln s
  · exact objVt_mat st ln s
  · exact objVn_mat st ln s
  · exact objF_mat st ln s
  · exact objMtllib_mat mtlFiles st s
  · exact objWarn_mat st ln _

/-- Running lines none of which is a `usemtl` directive: the active material
is preserved and every new face carries it. -/
theorem runObjLines_mat_faces (mtlFiles : String → List String) (lns : List String)
    (h : ∀ s ∈ lns, ¬ cstrN s 6 = "usemtl".data) :
    ∀ st ln, (runObjLines mtlFiles st lns ln).mat = st.mat ∧
      ∀ fc ∈ (runObjLines mtlFiles st lns ln).faces, fc ∈ st.faces ∨ fc.mat = st.mat := by
  induction lns with
  | nil => exact fun st ln => ⟨rfl, fun fc hf => Or.inl hf⟩
  | cons s rest ih =>
    intro st ln
    have hs : ¬ cstrN s 6 = "usemtl".data := h s (List.mem_cons_self s rest)
    have hrest : ∀ s' ∈ rest, ¬ cstrN s' 6 = "usemtl".data :=
      fun s' h' => h s' (List.mem_cons_of_mem s h')
    obtain ⟨ihm, ihf⟩ := ih hrest (objStep mtlFiles st ln s) (ln + 1)
    have hm := objStep_mat mtlFiles st ln s hs
    refine ⟨by rw [runObjLines, ihm, hm], ?_⟩
    intro fc hf
    rcases ihf fc (by rw [runObjLines] at hf; exact hf) with h1 | h1
    · rcases objStep_faces_mem mtlFiles st ln s fc h1 with h2 | h2
      · exact Or.inl h2
      · exact Or.inr h2
    · rw [hm] at h1
      exact Or.inr h1

/-- A line whose first two characters are `"f "` is dispatched to the face
handler. -/
theorem objStep_eq_f (mtlFiles : String → List String) (st : ParseState)
    (ln : Nat) (s : String) (hpre : cstrN s 2 = "f ".data) :
    objStep mtlFiles st ln s = objF st ln s := by
  obtain ⟨t, hdata⟩ := take_eq_append hpre
  have hdata' : s.data = 'f' :: ' ' :: t := by rw [hdata]; rfl
  unfold objStep
  rw [if_neg (by rw [hdata']; simp), if_neg (by rw [hdata']; simp),
    if_neg (by rw [hpre]; decide), if_neg (by rw [hpre]; decide),
    if_neg (by rw [hpre]; decide), if_pos hpre]

/-- A line whose first six characters are `"usemtl"` is dispatched to the
`usemtl` handler. -/
theorem objStep_eq_usemtl (mtlFiles : String → List String) (st : ParseState)
    (ln : Nat) (s : String) (hpre : cstrN s 6 = "usemtl".data) :
    objStep mtlFiles st ln s = objUsemtl st ln s := by
  obtain ⟨t, hdata⟩ := take_eq_append hpre
  have hdata' : s.data = 'u' :: 's' :: 'e' :: 'm' :: 't' :: 'l' :: t := by rw [hdata]; rfl
  have h2 : cstrN s 2 = ['u', 's'] := by
    have := cstrN_two_of_six hpre
    rw [this]; rfl
  unfold objStep
  rw [if_neg (by rw [hdata']; simp), if_neg (by rw [hdata']; simp),
    if_neg (by rw [h2]; decide), if_neg (by rw [h2]; decide),
    if_neg (by rw [h2]; decide), if_neg (by rw [h2]; decide),
    if_neg (by rw [hpre]; decide), if_pos hpre]

/-! ### Claims -/

/-- The MTL re-declaration input of the claim, without trailing directives. -/
def mtlRedecl3 : MtlAcc :=
  runMtlLines "m.mtl" mtlAcc0 ["newmtl A", "Kd 1 0 0", "newmtl A"] 1

/-- Models `Load` invoked on an already-loaded resource while the process locale is
`da_DK`. -/
def localeRun : OBJResourceState × ProcState :=
  Load mf0 [] loadedRes { locale := "da_DK", log := [] }

/-- C1 counterexample: after `newmtl A`, `Kd 1 0 0`, `newmtl A`, the single
table entry named "A" is not the format defaults (as the claim's
"overriding entry" reading predicts, there being no directives after the
second `newmtl`): it still holds the first declaration's `Kd 1 0 0`. -/
theorem C1_counterexample :
    materialNamed mtlRedecl3.mtl "A" =
      some { newMaterialDefaults with diffuse := ⟨1, 0, 0, 1⟩ } ∧
    materialNamed mtlRedecl3.mtl "A" ≠ some newMaterialDefaults := by
  have he : materialNamed mtlRedecl3.mtl "A" =
      some { newMaterialDefaults with diffuse := ⟨1, 0, 0, 1⟩ } := rfl
  refine ⟨he, ?_⟩
  rw [he]
  intro h
  rw [Option.some_inj] at h
  have hd := congrArg (fun m => m.diffuse.x) h
  norm_num [newMaterialDefaults] at hd

/-- C1 amended: a `newmtl` re-declaration does not override the table entry.
`std::map::insert` keeps the first entry, so after `newmtl A`, `Kd 1 0 0`,
`newmtl A`, `Ns 7` the table still has exactly one entry "A" holding the
defaults overridden by the directives between the first and second `newmtl`
(diffuse (1,0,0,1), shininess 0); the second `newmtl` allocates a fresh
material that is not reachable from the table, and the post-re-declaration
`Ns 7` mutates only that detached material. -/
theorem C1_redeclaration_keeps_first_entry :
    mtlRedecl.mtl.table = [("A", 0)] ∧
    materialNamed mtlRedecl.mtl "A" =
      some { newMaterialDefaults with diffuse := ⟨1, 0, 0, 1⟩ } ∧
    mtlRedecl.mtl.store.length = 2 ∧
    mtlRedecl.cur = some 1 ∧
    mtlRedecl.mtl.store.get? 1 = some { newMaterialDefaults with shininess := 7 } :=
  ⟨rfl, rfl, rfl, rfl, rfl⟩

/-- C2: `setlocale(LC_NUMERIC, "C")` runs before the already-loaded check and
the early return on line 217 skips the restore, so after `Load` returns on
that path the process numeric locale is "C", not the caller's `da_DK`. -/
theorem C2_early_return_clobbers_locale :
    localeRun.2.locale = "C" ∧ localeRun.2.locale ≠ "da_DK" := by decide

/-- C3: the round-trip input with the texcoord-absent face encoding yields one
face (3 output corners) with the claimed positions and normals, but the
texcoord slots are not left unset: lines 301-303 resolve them against the
empty texcoord stream at index -1 (out-of-bounds read, undefined behaviour),
modelled as `TexSlot.oob`. -/
theorem C3_texcoords_resolved_out_of_bounds :
    roundTripRun.1.faces = PtrVal.ptr
      [{ v1 := some ⟨0, 0, 0⟩, v2 := some ⟨1, 0, 0⟩, v3 := some ⟨0, 1, 0⟩
         n1 := some ⟨0, 0, 1⟩, n2 := some ⟨0, 0, 1⟩, n3 := some ⟨0, 0, 1⟩
         t1 := TexSlot.oob, t2 := TexSlot.oob, t3 := TexSlot.oob, mat := none }] ∧
    TexSlot.oob ≠ TexSlot.unset := by decide

/-- C4: a face whose position index (2) exceeds the declared position count
(1) is not rejected: no bounds check exists, the `vert[1]` reads are out of
bounds (undefined behaviour, modelled as `none`), the face is still added to
the face set, and no warning is logged. -/
theorem C4_out_of_range_face_not_rejected :
    oobFaceRun.1.faces = PtrVal.ptr
      [{ v1 := none, v2 := none, v3 := none
         n1 := some ⟨0, 0, 1⟩, n2 := some ⟨0, 0, 1⟩, n3 := some ⟨0, 0, 1⟩
         t1 := TexSlot.val ⟨0, 0⟩, t2 := TexSlot.val ⟨0, 0⟩, t3 := TexSlot.val ⟨0, 0⟩
         mat := none }] ∧
    oobFaceRun.2.log = [] := by decide

/-- C5 counterexample: calling `Load` on an already-loaded resource is not a
no-op on process-visible state: the numeric locale changes (here from
`de_DE` to "C"). -/
theorem C5_counterexample :
    (Load mf0 [] loadedRes { locale := "de_DE", log := [] }).2.locale ≠ "de_DE" := by
  decide

/-- C5 amended: when the resource is already loaded, `Load` leaves the
resource (geometry, scene node, material table) and the warning log
unchanged and returns immediately — but it has already set the process
numeric locale to "C" and does not restore it on this path. -/
theorem C5_already_loaded_noop_except_locale (mtlFiles : String → List String)
    (objLines : List String) (r : OBJResourceState) (p : ProcState) (fs : List ObjFace)
    (h : r.faces = PtrVal.ptr fs) :
    Load mtlFiles objLines r p = (r, { p with locale := "C" }) := by
  unfold Load
  rw [h]

/-- C5 amended, witness. -/
theorem C5_already_loaded_noop_except_locale_witness :
    Load mf0 [] loadedRes { locale := "de_DE", log := [] } =
      (loadedRes, { locale := "C", log := [] }) :=
  C5_already_loaded_noop_except_locale mf0 [] loadedRes { locale := "de_DE", log := [] } [] rfl

/-- C6: a (well-formed or malformed) `Ka`/`Kd`/`Ks`/`Ns` directive processed
while no material is active logs exactly one warning, leaves the material
store and name table unchanged, and leaves the active material NULL. -/
theorem C6_color_before_newmtl (fname : String) (acc : MtlAcc) (ln : Nat) (s : String)
    (hcur : acc.cur = none)
    (hpre : cstrN s 2 = "Ka".data ∨ cstrN s 2 = "Kd".data ∨
            cstrN s 2 = "Ks".data ∨ cstrN s 2 = "Ns".data) :
    (mtlStep fname acc ln s).mtl = acc.mtl ∧ (mtlStep fname acc ln s).cur = none ∧
    (mtlStep fname acc ln s).log.length = acc.log.length + 1 := by
  obtain ⟨msg, hm⟩ := mtlStep_color_no_cur hcur hpre
  rw [hm]
  exact ⟨mtlWarn_mtl fname acc ln msg, by rw [mtlWarn_cur]; exact hcur,
    mtlWarn_log fname acc ln msg⟩

/-- C6 witness: `Ka 1 1 1` on an empty MTL state. -/
theorem C6_color_before_newmtl_witness :
    (mtlStep "m.mtl" mtlAcc0 1 "Ka 1 1 1").mtl = mtlAcc0.mtl ∧
    (mtlStep "m.mtl" mtlAcc0 1 "Ka 1 1 1").cur = none ∧
    (mtlStep "m.mtl" mtlAcc0 1 "Ka 1 1 1").log.length = mtlAcc0.log.length + 1 :=
  C6_color_before_newmtl "m.mtl" mtlAcc0 1 "Ka 1 1 1" rfl (Or.inl (by decide))

/-- C7: a face line with 4 or more whitespace-separated corner tokens is
rejected with exactly one warning ("Face has not been triangulated") and
changes nothing else: no vertices or faces are produced for that line. -/
theorem C7_nontriangulated_rejected (mtlFiles : String → List String) (st : ParseState)
    (ln : Nat) (s : String)
    (hpre : cstrN s 2 = "f ".data)
    (hlen : 4 ≤ (wsTokens (strDrop s 2)).length) :
    objStep mtlFiles st ln s = objWarn st ln "Face has not been triangulated" := by
  rw [objStep_eq_f mtlFiles st ln s hpre]
  unfold objF
  rw [min_eq_right hlen, if_pos (by decide : (4 : Nat) ≠ 3)]

/-- C7 witness: `f 1 2 3 4`. -/
theorem C7_nontriangulated_rejected_witness :
    objStep mf0 objSt0 1 "f 1 2 3 4" = objWarn objSt0 1 "Face has not been triangulated" :=
  C7_nontriangulated_rejected mf0 objSt0 1 "f 1 2 3 4" (by decide) (by decide)

/-- C8: the constructor initializes `faces(NULL)` but not `node`, so before
any `Load` the scene node returned by `GetSceneNode` is the uninitialized
(indeterminate) pointer, not NULL. -/
theorem C8_node_uninitialized_not_null :
    GetSceneNode (mkOBJResource "x.obj") = PtrVal.uninit ∧
    GetSceneNode (mkOBJResource "x.obj") ≠ PtrVal.null := by decide

/-- C9: a `usemtl` line naming a material absent from the table logs one
warning and binds the `Load`-local default material as the active material;
every face added by subsequent non-`usemtl` lines carries that default
material (rather than no material). -/
theorem C9_unknown_usemtl_binds_default (mtlFiles : String → List String)
    (st : ParseState) (ln : Nat) (s name : String)
    (hpre : cstrN s 6 = "usemtl".data)
    (htok : (wsTokens (strDrop s 6)).head? = some name)
    (hlook : st.mtl.table.lookup name = none) :
    (objStep mtlFiles st ln s).mat = some MatRef.defaultMat ∧
    (objStep mtlFiles st ln s).log = st.log ++
      [(st.file, ln, "Material " ++ name ++ " is not defined in any material resources")] ∧
    ∀ lns, (∀ s2 ∈ lns, ¬ cstrN s2 6 = "usemtl".data) → ∀ ln2 fc,
      fc ∈ (runObjLines mtlFiles (objStep mtlFiles st ln s) lns ln2).faces →
      fc ∈ (objStep mtlFiles st ln s).faces ∨ fc.mat = some MatRef.defaultMat := by
  have hstep : objStep mtlFiles st ln s =
      { (objWarn st ln ("Material " ++ name ++ " is not defined in any material resources")) with
        mat := some MatRef.defaultMat } := by
    rw [objStep_eq_usemtl mtlFiles st ln s hpre]
    unfold objUsemtl
    simp only [htok, hlook]
  refine ⟨by rw [hstep], by rw [hstep]; rfl, ?_⟩
  intro lns hno ln2 fc hf
  obtain ⟨hm, hfaces⟩ := runObjLines_mat_faces mtlFiles lns hno (objStep mtlFiles st ln s) ln2
  rcases hfaces fc hf with h1 | h1
  · exact Or.inl h1
  · right
    rw [h1, hstep]

/-- C9 witness: `usemtl foo` on an empty table, followed by a face line. -/
theorem C9_unknown_usemtl_binds_default_witness :
    (objStep mf0 objSt0 1 "usemtl foo").mat = some MatRef.defaultMat ∧
    ∀ fc ∈ (runObjLines mf0 (objStep mf0 objSt0 1 "usemtl foo") ["f 1 1 1"] 2).faces,
      fc ∈ (objStep mf0 objSt0 1 "usemtl foo").faces ∨ fc.mat = some MatRef.defaultMat :=
  ⟨(C9_unknown_usemtl_binds_default mf0 objSt0 1 "usemtl foo" "foo" (by decide) (by decide)
      (by decide)).1,
   fun fc hf => (C9_unknown_usemtl_binds_default mf0 objSt0 1 "usemtl foo" "foo" (by decide)
      (by decide) (by decide)).2.2 ["f 1 1 1"] (by decide) 2 fc hf⟩

/-- C10: `Unload` sets both the face-set and scene-node pointers to NULL
without consulting any file contents (its definition takes none), leaves the
file path and material table untouched, and is idempotent; afterwards
`GetSceneNode` returns NULL. -/
theorem C10_unload_clears_and_idempotent (r : OBJResourceState) :
    GetSceneNode (Unload r) = PtrVal.null ∧
    (Unload r).faces = PtrVal.null ∧
    Unload (Unload r) = Unload r ∧
    (Unload r).file = r.file ∧ (Unload r).mtl = r.mtl :=
  ⟨rfl, rfl, rfl, rfl, rfl⟩
